import Mathlib

/-!
Verification of the nile ISBN-scanning client (nile-camera).

Shallow embedding of:
  * `validateISBN` / `handleSubmit`  — src/components/ManualEntryModal.tsx
  * the debounce state machine of `processScannedISBN`, `onCodeScanned`
    — src/components/CameraScreen.tsx
  * `postScanToAPI` (= `postScanToSupabase`) — src/services/api.ts

JavaScript strings are Lean `String`s; JS `undefined`/missing optional
fields are `Option`; truthiness of an optional string (`if (x)`) is
"present and non-empty".  JS numbers carried opaquely through `BookData`
are modelled as `Int` (no arithmetic is ever performed on them).
-/

/-- The character class `\s` of JavaScript regular expressions
(whitespace, as used in `value.replace(/[-\s]/g, '')` and
`String.prototype.trim`). -/
def isJsWhitespace (c : Char) : Bool :=
  c = ' ' || c = '\t' || c = '\n' || c = '\r' ||
  c.toNat = 0x0b || c.toNat = 0x0c || c.toNat = 0xa0 || c.toNat = 0x1680 ||
  (0x2000 ≤ c.toNat && c.toNat ≤ 0x200a) ||
  c.toNat = 0x2028 || c.toNat = 0x2029 || c.toNat = 0x202f ||
  c.toNat = 0x205f || c.toNat = 0x3000 || c.toNat = 0xfeff

/-- `value.replace(/[-\s]/g, '')`: strip every hyphen and whitespace
character (ManualEntryModal.tsx, lines 37 and 66). -/
def cleanISBN (value : String) : String :=
  ⟨value.data.filter (fun c => !(c = '-' || isJsWhitespace c))⟩

/-- `isbn.trim()` (JS `String.prototype.trim`): drop leading and trailing
whitespace. -/
def jsTrim (s : String) : String :=
  ⟨((s.data.dropWhile isJsWhitespace).reverse.dropWhile isJsWhitespace).reverse⟩

/-- A character matched by `[\dX]` under the `i` flag: a decimal digit,
or the letter X in either case. -/
def isDigitOrX (c : Char) : Bool :=
  c.isDigit || c = 'X' || c = 'x'

/-- The test `/^[\dX]+$/i.test(s)`: non-empty, and every character a digit
or X/x. -/
def regexDigitsX (s : String) : Bool :=
  decide (0 < s.data.length) && s.data.all isDigitOrX

/-- `validateISBN` from ManualEntryModal.tsx (lines 35-54): strip hyphens
and whitespace, require length exactly 10 or 13, then require every
character to be a digit or X/x.  (The component also sets an error
message; only the boolean verdict is modelled.) -/
def validateISBN (value : String) : Bool :=
  let cleanedISBN := cleanISBN value
  if cleanedISBN.length != 10 && cleanedISBN.length != 13 then
    false
  else
    let isValidFormat := regexDigitsX cleanedISBN
    if !isValidFormat then false
    else true

/-- `handleSubmit` from ManualEntryModal.tsx (lines 59-71): reject blank
input, validate, and on success pass the cleaned ISBN to `onSubmit`
(`some code` = the code handed to `onSubmit`; `none` = nothing
submitted). -/
def handleSubmit (isbn : String) : Option String :=
  if jsTrim isbn = "" then none
  else if validateISBN isbn then some (cleanISBN isbn)
  else none

/-- Modelled from the spec: the regular expression `^[0-9]{9}[0-9Xx]$`
(ten characters, the first nine digits, the last a digit or X/x). -/
def specRegex10 (s : String) : Bool :=
  s.data.length = 10 &&
  (s.data.take 9).all Char.isDigit &&
  (match s.data.get? 9 with
   | some c => c.isDigit || c = 'X' || c = 'x'
   | none => false)

/-- Modelled from the spec: the regular expression `^[0-9]{13}$`. -/
def specRegex13 (s : String) : Bool :=
  s.data.length = 13 && s.data.all Char.isDigit

/-- Modelled from the spec (§4.1 Validator contract), for comparison with
`validateISBN`: strip whitespace and hyphens, accept iff the result is 10
characters matching `^[0-9]{9}[0-9Xx]$` or 13 characters matching
`^[0-9]{13}$`, and on acceptance output the normalized code (uppercase,
no separators). -/
def specValidateISBN (raw : String) : Option String :=
  let s := cleanISBN raw
  if specRegex10 s then some ⟨s.data.map Char.toUpper⟩
  else if specRegex13 s then some ⟨s.data.map Char.toUpper⟩
  else none

example : validateISBN "978-0-134-67094-2" = true := by decide
example : validateISBN "12345" = false := by decide
example : validateISBN "123456789012X" = true := by decide
example : specValidateISBN "123456789012X" = none := by decide
example : handleSubmit "978-0-134-67094-2" = some "9780134670942" := by decide
example : handleSubmit "   " = none := by decide

/-- Chars of `pat` appear as a leading block of the char list. -/
def startsWithList : List Char → List Char → Bool
  | [], _ => true
  | _ :: _, [] => false
  | p :: ps, c :: cs => (p = c) && startsWithList ps cs

/-- Chars of `pat` appear as a contiguous block somewhere in the list. -/
def hasSubstrList (pat : List Char) : List Char → Bool
  | [] => pat.isEmpty
  | c :: cs => startsWithList pat (c :: cs) || hasSubstrList pat cs

/-- `s.includes(pat)` of JavaScript. -/
def jsIncludes (s pat : String) : Bool :=
  hasSubstrList pat.data s.data

/-- JS `a || b` on an optional string (`data.error || fallback`,
`data.book || null`): an absent or empty string is falsy. -/
def jsOrStr (a : Option String) (b : String) : String :=
  match a with
  | some s => if s = "" then b else s
  | none => b

/-- JS truthiness of an optional string (`if (data.warning)`). -/
def jsTruthy (a : Option String) : Bool :=
  match a with
  | some s => s != ""
  | none => false

/-- `BookData` from src/types/Book.ts.  Optional fields are `Option`;
JS numbers are modelled as `Int` (the client only passes them through). -/
structure BookData where
  isbn : String
  title : String
  subtitle : Option String := none
  authors : List String := []
  publisher : Option String := none
  published_date : Option String := none
  description : Option String := none
  page_count : Option Int := none
  categories : Option (List String) := none
  language : Option String := none
  thumbnail_url : Option String := none
  small_thumbnail_url : Option String := none
  average_rating : Option Int := none
  ratings_count : Option Int := none
  quantity_available : Option Int := none
  scan_count : Option Int := none
  first_scanned_at : Option String := none
  last_scanned_at : Option String := none
  deriving DecidableEq, Repr

/-- `ScanResponse` from src/types/Book.ts: the parsed JSON body of the
`/api/scan` response.  `book?: BookData | null` is collapsed to `Option`
(`null` and `undefined` are both falsy wherever the client inspects it). -/
structure ScanResponse where
  success : Bool
  scan_id : Option String := none
  book : Option BookData := none
  warning : Option String := none
  error : Option String := none
  code : Option String := none
  details : Option String := none
  deriving DecidableEq, Repr

/-- `ScanResult` from src/types/Book.ts: the outcome `postScanToAPI`
hands back to the UI. -/
structure ScanResult where
  success : Bool
  message : Option String := none
  book : Option BookData := none
  deriving DecidableEq, Repr

/-- A JavaScript exception as the `catch` block of `postScanToAPI`
distinguishes it: a `TypeError` (with message), some other `Error`
subclass (with message; e.g. the `SyntaxError` of a failed
`response.json()`), or a thrown value that is not an `Error` at all. -/
inductive JsError where
  | typeError (msg : String)
  | otherError (msg : String)
  | nonError
  deriving DecidableEq, Repr

/-- What `await fetch(...)` followed by `await response.json()` produced:
either a response (its `ok` flag, its `statusText`, and the parsed body)
or a thrown exception (network failure, JSON parse failure, ...). -/
inductive FetchOutcome where
  | response (ok : Bool) (statusText : String) (data : ScanResponse)
  | thrown (e : JsError)
  deriving DecidableEq, Repr

/-- `postScanToAPI` from src/services/api.ts (lines 37-131), as a function
of the scanned ISBN and of what the transport produced.  (`getScannerId`
and the request body only feed the network call and never affect the
returned `ScanResult`; the console logging is omitted.) -/
def postScanToAPI (isbn : String) (env : FetchOutcome) : ScanResult :=
  match env with
  | .response ok statusText data =>
    if !ok then
      if data.code = some "INVALID_ISBN" then
        { success := false
          message := some "This barcode is not a valid ISBN. Please scan a book\x27s ISBN barcode." }
      else if data.code = some "MISSING_ISBN" then
        { success := false, message := some "ISBN is required" }
      else
        { success := false
          message := some (jsOrStr data.error ("Server error: " ++ statusText)) }
    else if data.success then
      if jsTruthy data.warning then
        { success := true, message := data.warning, book := none }
      else
        { success := true, message := some "Scan saved successfully!", book := data.book }
    else
      { success := false, message := some (jsOrStr data.error "Unknown error occurred") }
  | .thrown e =>
    match e with
    | .typeError msg =>
      if jsIncludes msg "Network request failed" then
        { success := false
          message := some "Network error. Please check your internet connection and try again." }
      else
        { success := false, message := some msg }
    | .otherError msg =>
      { success := false, message := some msg }
    | .nonError =>
      { success := false, message := some "Unknown error occurred" }

/-- Line 134 of src/services/api.ts: `postScanToSupabase = postScanToAPI`. -/
def postScanToSupabase : String → FetchOutcome → ScanResult := postScanToAPI

/-- `DEBOUNCE_DELAY` from CameraScreen.tsx line 52 (milliseconds). -/
def DEBOUNCE_DELAY : Nat := 2000

/-- The mutable state of one camera session (CameraScreen.tsx):
`lastCode` is the ref `lastScannedISBN`, `busy` the ref `isProcessing`,
`timerSet` whether `scanDebounceTimer` holds a pending timeout, and
`scanCount` the session counter.  `inFlight` counts submissions started
by `processScannedISBN` whose `finally` has not yet run; it is bookkeeping
for stating the at-most-one-in-flight invariant, not a program variable. -/
structure ScannerState where
  lastCode : String
  busy : Bool
  timerSet : Bool
  scanCount : Nat
  inFlight : Nat
  deriving DecidableEq, Repr

/-- The state on mount: `lastScannedISBN = ''`, `isProcessing = false`,
no timer, `scanCount = 0`. -/
def initState : ScannerState :=
  { lastCode := "", busy := false, timerSet := false, scanCount := 0, inFlight := 0 }

/-- The guard of `processScannedISBN` (CameraScreen.tsx line 79), phrased
positively: the detected code is accepted for submission iff
`!(isProcessing.current || isbn === lastScannedISBN.current)`. -/
def accepts (s : ScannerState) (code : String) : Bool :=
  !(s.busy || code == s.lastCode)

/-- One invocation of `processScannedISBN` with `code`, up to the point
where it awaits the network call (CameraScreen.tsx lines 76-107): if the
guard rejects, nothing changes; otherwise `isProcessing := true`,
`lastScannedISBN := code`, the debounce timer is (re)armed, and one
submission is started. -/
def stepScan (s : ScannerState) (code : String) : ScannerState :=
  if s.busy || code == s.lastCode then s
  else
    { s with busy := true, lastCode := code, timerSet := true,
             inFlight := s.inFlight + 1 }

/-- The debounce timeout firing (CameraScreen.tsx lines 94-96):
`lastScannedISBN := ''`; it touches neither `isProcessing` nor the counter. -/
def stepTimer (s : ScannerState) : ScannerState :=
  { s with lastCode := "", timerSet := false }

/-- The awaited `postScanToSupabase` call settling (CameraScreen.tsx
lines 110-129).  `outcome = some r`: the promise resolved with `r`, and
`setScanCount(prev => prev + 1)` runs iff `r.success`; `outcome = none`:
it threw, the `catch` block runs, no increment.  Either way the `finally`
block sets `isProcessing := false`. -/
def stepComplete (s : ScannerState) (outcome : Option ScanResult) : ScannerState :=
  { s with busy := false,
           inFlight := s.inFlight - 1,
           scanCount := s.scanCount +
             (match outcome with
              | some r => if r.success then 1 else 0
              | none => 0) }

/-- The events a camera session can undergo: a barcode detection reaching
`processScannedISBN`, the debounce timer firing (only if armed), and an
in-flight submission settling (only if one is in flight). -/
inductive Step : ScannerState → ScannerState → Prop where
  | scan (s : ScannerState) (code : String) : Step s (stepScan s code)
  | timer (s : ScannerState) (h : s.timerSet = true) : Step s (stepTimer s)
  | complete (s : ScannerState) (outcome : Option ScanResult)
      (h : 0 < s.inFlight) : Step s (stepComplete s outcome)

/-- States a camera session can reach from mount. -/
inductive Reachable : ScannerState → Prop where
  | init : Reachable initState
  | step {s t : ScannerState} (hs : Reachable s) (st : Step s t) : Reachable t

/-- A scanned code as `useCodeScanner`'s `onCodeScanned` delivers it:
`value` may be absent, `type` is the barcode format. -/
structure ScannedCode where
  value : Option String
  type : String
  deriving DecidableEq, Repr

/-- `onCodeScanned` from CameraScreen.tsx (lines 151-160): if the camera
is active and some code was detected whose `value` is truthy, that raw
value is handed to `processScannedISBN`; `none` means no call is made.
No validation or normalization happens on this path. -/
def onCodeScanned (isActive : Bool) (codes : List ScannedCode) : Option String :=
  if !isActive || codes.length = 0 then none
  else
    match codes with
    | [] => none
    | code :: _ =>
      match code.value with
      | some v => if v = "" then none else some v
      | none => none

/-- The code `processScannedISBN` passes verbatim to the submission client
(`postScanToSupabase(isbn)`, CameraScreen.tsx line 110) when invoked with
`code` in state `s`: the raw `code` if accepted, nothing otherwise. -/
def submittedCode (s : ScannerState) (code : String) : Option String :=
  if accepts s code then some code else none

example : accepts initState "9780134670942" = true := by decide
example : (stepScan initState "9780134670942").busy = true := by decide
example : accepts (stepScan initState "9780134670942") "9780134670942" = false := by decide
example :
    accepts (stepTimer (stepScan initState "9780134670942")) "9999999999999" = false := by
  decide

/-- C1: a newly detected code is accepted iff `isProcessing` is false and
the code differs from `lastScannedISBN`; on acceptance the debouncer sets
`isProcessing := true`, `lastScannedISBN := code`, and arms a timer that
resets `lastScannedISBN` to `""` after `DEBOUNCE_DELAY = 2000` ms; on
completion (resolved or thrown) `isProcessing := false` unconditionally. -/
theorem debouncer_transition_rule (s : ScannerState) (code : String)
    (outcome : Option ScanResult) :
    (accepts s code = true ↔ (s.busy = false ∧ code ≠ s.lastCode))
    ∧ (accepts s code = true →
        (stepScan s code).busy = true ∧ (stepScan s code).lastCode = code
        ∧ (stepScan s code).timerSet = true
        ∧ (stepTimer (stepScan s code)).lastCode = "")
    ∧ DEBOUNCE_DELAY = 2000
    ∧ (stepComplete s outcome).busy = false := by
  refine ⟨?_, ?_, rfl, rfl⟩
  · simp [accepts]
  · intro h
    have hc : (s.busy || code == s.lastCode) = false := by
      simpa [accepts] using h
    simp [stepScan, hc, stepTimer]

theorem debouncer_transition_rule_witness :
    accepts initState "9780134670942" = true
    ∧ (stepScan initState "9780134670942").busy = true := by
  refine ⟨(debouncer_transition_rule initState "9780134670942" none).1.mpr
            (by decide),
          ((debouncer_transition_rule initState "9780134670942" none).2.1
            (by decide)).1⟩

/-- The states of a camera session satisfy: the number of in-flight
submissions is 1 while `isProcessing` holds and 0 otherwise. -/
def flightInvariant (s : ScannerState) : Prop :=
  s.inFlight = if s.busy then 1 else 0

lemma step_flightInvariant {s t : ScannerState} (st : Step s t)
    (ih : flightInvariant s) : flightInvariant t := by
  cases st with
  | scan code =>
    unfold flightInvariant stepScan at *
    by_cases hc : (s.busy || code == s.lastCode) = true
    · simpa [hc] using ih
    · have hb : s.busy = false := by
        cases hbusy : s.busy
        · rfl
        · simp [hbusy] at hc
      have hne : ¬(code = s.lastCode) := by
        intro he
        exact hc (by simp [he])
      simp [hc, hb, hne] at ih ⊢
      omega
  | timer htimer =>
    simpa [flightInvariant, stepTimer] using ih
  | complete outcome hpos =>
    unfold flightInvariant stepComplete at *
    cases hb : s.busy
    · rw [hb] at ih; simp [ih] at hpos
    · rw [hb] at ih; simp [ih]

lemma reachable_flightInvariant {s : ScannerState} (h : Reachable s) :
    flightInvariant s := by
  induction h with
  | init => simp [flightInvariant, initState]
  | step hs st ih => exact step_flightInvariant st ih

/-- C2: in every reachable state of the camera session at most one
submission is in flight — `processScannedISBN` starts a submission only
when `isProcessing` is false, sets it true on start, and clears it only
when that submission completes. -/
theorem at_most_one_in_flight {s : ScannerState} (h : Reachable s) :
    s.inFlight ≤ 1 := by
  have hf := reachable_flightInvariant h
  rw [hf]
  cases s.busy <;> simp

theorem at_most_one_in_flight_witness :
    (stepScan initState "9780134670942").inFlight ≤ 1 :=
  at_most_one_in_flight
    (Reachable.step Reachable.init (Step.scan initState "9780134670942"))

/-- C3 counterexample: accept "9780134670942" from the mount state, let
the debounce timer fire while the submission is still in flight
(`busy = true`, `lastCode` cleared); the distinct code "9999999999999" is
then NOT accepted — nothing is passed to the submission client — contrary
to the claim that a different code is accepted while the earlier
submission is in flight. -/
theorem distinct_code_mid_flight_cex :
    Reachable (stepTimer (stepScan initState "9780134670942"))
    ∧ (stepTimer (stepScan initState "9780134670942")).busy = true
    ∧ (stepTimer (stepScan initState "9780134670942")).lastCode = ""
    ∧ "9999999999999" ≠ "9780134670942"
    ∧ accepts (stepTimer (stepScan initState "9780134670942")) "9999999999999" = false
    ∧ submittedCode (stepTimer (stepScan initState "9780134670942")) "9999999999999"
        = none := by
  refine ⟨Reachable.step (Reachable.step Reachable.init
            (Step.scan initState "9780134670942"))
            (Step.timer _ (by decide)),
          by decide, by decide, by decide, by decide, by decide⟩

/-- C3 amended: while a submission is in flight (`isProcessing = true`)
every newly detected code is rejected, distinct from the previous one or
not; a code different from `lastScannedISBN` is accepted immediately iff
`isProcessing` is false, and this is independent of the window/timer
state (`lastCode` cleared or not, `timerSet` or not). -/
theorem distinct_code_acceptance_amended (s : ScannerState) (code : String) :
    (s.busy = true → accepts s code = false)
    ∧ (s.busy = false → code ≠ s.lastCode → accepts s code = true) := by
  constructor
  · intro h
    simp [accepts, h]
  · intro h hne
    simp [accepts, h, hne]

theorem distinct_code_acceptance_amended_witness :
    accepts (stepTimer (stepScan initState "9780134670942")) "9999999999999" = false
    ∧ accepts initState "9780134670942" = true := by
  refine ⟨(distinct_code_acceptance_amended
             (stepTimer (stepScan initState "9780134670942")) "9999999999999").1
            (by decide),
          (distinct_code_acceptance_amended initState "9780134670942").2
            (by decide) (by decide)⟩

lemma validateISBN_length {raw : String} (h : validateISBN raw = true) :
    (cleanISBN raw).length = 10 ∨ (cleanISBN raw).length = 13 := by
  unfold validateISBN at h
  by_cases h10 : (cleanISBN raw).length = 10
  · exact Or.inl h10
  · by_cases h13 : (cleanISBN raw).length = 13
    · exact Or.inr h13
    · simp [h10, h13] at h

lemma validateISBN_format {raw : String} (h : validateISBN raw = true) :
    regexDigitsX (cleanISBN raw) = true := by
  unfold validateISBN at h
  by_cases hf : regexDigitsX (cleanISBN raw) = true
  · exact hf
  · simp [hf] at h

lemma handleSubmit_eq_clean {raw code : String}
    (h : handleSubmit raw = some code) : code = cleanISBN raw := by
  unfold handleSubmit at h
  by_cases ht : jsTrim raw = ""
  · simp [ht] at h
  · by_cases hv : validateISBN raw = true
    · simp [ht, hv] at h
      exact h.symm
    · simp [ht, hv] at h

lemma clean_all_no_sep (raw : String) :
    (cleanISBN raw).data.all (fun c => !(c = '-' || isJsWhitespace c)) = true := by
  unfold cleanISBN
  simp only [List.all_eq_true]
  intro c hc
  exact (List.mem_filter.mp hc).2

/-- C4 counterexample: the camera path performs no validation or
normalization — the EAN-8 barcode value "12345678" (length 8, neither 10
nor 13) reaches `processScannedISBN` through `onCodeScanned`, is accepted
from the mount state, and is passed verbatim to the submission client. -/
theorem camera_code_unvalidated_cex :
    onCodeScanned true [{ value := some "12345678", type := "ean-8" }]
      = some "12345678"
    ∧ accepts initState "12345678" = true
    ∧ submittedCode initState "12345678" = some "12345678"
    ∧ ¬(("12345678" : String).length = 10 ∨ ("12345678" : String).length = 13) := by
  decide

/-- C4 amended: every code accepted through the MANUAL-ENTRY path is
normalized — its length is exactly 10 or 13 and it contains no hyphen and
no whitespace character; camera-scanned codes, by contrast, are passed to
the submission client verbatim, with no validation (only the server
validates them). -/
theorem manual_codes_normalized_amended (raw code cam : String)
    (s : ScannerState) :
    (handleSubmit raw = some code →
      (code.length = 10 ∨ code.length = 13)
      ∧ code.data.all (fun c => !(c = '-' || isJsWhitespace c)) = true)
    ∧ (accepts s cam = true → submittedCode s cam = some cam) := by
  constructor
  · intro h
    have hv : validateISBN raw = true := by
      unfold handleSubmit at h
      by_cases ht : jsTrim raw = ""
      · simp [ht] at h
      · by_cases hv : validateISBN raw = true
        · exact hv
        · simp [ht, hv] at h
    have hc := handleSubmit_eq_clean h
    subst hc
    exact ⟨validateISBN_length hv, clean_all_no_sep raw⟩
  · intro h
    simp [submittedCode, h]

theorem manual_codes_normalized_amended_witness :
    (("9780134670942" : String).length = 10 ∨ ("9780134670942" : String).length = 13)
    ∧ submittedCode initState "12345678" = some "12345678" := by
  refine ⟨((manual_codes_normalized_amended "978-0-134-67094-2" "9780134670942"
             "12345678" initState).1 (by decide)).1,
          (manual_codes_normalized_amended "978-0-134-67094-2" "9780134670942"
             "12345678" initState).2 (by decide)⟩

/-- C5 counterexample: `validateISBN` accepts "123456789012X" — 13
characters with a trailing X — which the spec regexes reject (13-digit
codes must be all digits); moreover the accepted output is NOT uppercased:
manual entry of "012345678x" submits "012345678x", where the spec
validator outputs "012345678X". -/
theorem validator_contract_cex :
    validateISBN "123456789012X" = true
    ∧ specValidateISBN "123456789012X" = none
    ∧ handleSubmit "012345678x" = some "012345678x"
    ∧ specValidateISBN "012345678x" = some "012345678X" := by
  decide

/-- C5 amended: after stripping whitespace and hyphens, `validateISBN`
accepts iff the result has length exactly 10 or 13 and every character is
a digit or the letter X/x (X permitted at ANY position and in BOTH
lengths); on acceptance the submitted code is the stripped string
unchanged (no uppercasing); every input whose stripped length is neither
10 nor 13 is rejected. -/
theorem validator_contract_amended (raw code : String) :
    (validateISBN raw = true ↔
      (((cleanISBN raw).length = 10 ∨ (cleanISBN raw).length = 13)
        ∧ (cleanISBN raw).data.all isDigitOrX = true))
    ∧ ((cleanISBN raw).length ≠ 10 ∧ (cleanISBN raw).length ≠ 13 →
        validateISBN raw = false)
    ∧ (handleSubmit raw = some code → code = cleanISBN raw) := by
  refine ⟨⟨fun h => ?_, fun h => ?_⟩, fun h => ?_, handleSubmit_eq_clean⟩
  · have hf := validateISBN_format h
    unfold regexDigitsX at hf
    exact ⟨validateISBN_length h, by
      rcases Bool.and_eq_true .. |>.mp hf with ⟨_, hall⟩
      exact hall⟩
  · obtain ⟨hlen, hall⟩ := h
    have hpos : 0 < (cleanISBN raw).data.length := by
      have : (cleanISBN raw).length = (cleanISBN raw).data.length := rfl
      rcases hlen with h10 | h13 <;> omega
    unfold validateISBN
    rcases hlen with h10 | h13
    · simp [h10, regexDigitsX, hpos, hall]
    · simp [h13, regexDigitsX, hpos, hall]
  · obtain ⟨h10, h13⟩ := h
    unfold validateISBN
    simp [h10, h13]

theorem validator_contract_amended_witness :
    validateISBN "978-0-134-67094-2" = true
    ∧ validateISBN "12345" = false
    ∧ ("9780134670942" : String) = cleanISBN "978-0-134-67094-2" := by
  refine ⟨(validator_contract_amended "978-0-134-67094-2" "9780134670942").1.mpr
            (by decide),
          (validator_contract_amended "12345" "x").2.1 (by decide),
          (validator_contract_amended "978-0-134-67094-2" "9780134670942").2.2
            (by decide)⟩

/-- A concrete book record for counterexamples and witnesses. -/
def sampleBook : BookData :=
  { isbn := "9780134670942", title := "The Effective Engineer" }

lemma postScanToAPI_warning {isbn statusText w : String} {d : ScanResponse}
    (hs : d.success = true) (hw : d.warning = some w) (hne : w ≠ "") :
    postScanToAPI isbn (.response true statusText d)
      = { success := true, message := some w, book := none } := by
  unfold postScanToAPI
  simp [hs, hw, jsTruthy, hne]

/-- C6 counterexample: a response with HTTP success, `success:true`, book
data, and the `warning` field PRESENT but equal to "" — JS truthiness
(`if (data.warning)`) sends it down the book branch, so the result carries
the response book data (not null) and the fixed success message, where the
claim demands message = the warning and book = null. -/
theorem partial_success_cex :
    postScanToAPI "9780134670942"
        (.response true "OK"
          { success := true, scan_id := some "scan-1", book := some sampleBook,
            warning := some "" })
      = { success := true, message := some "Scan saved successfully!",
          book := some sampleBook }
    ∧ (postScanToAPI "9780134670942"
        (.response true "OK"
          { success := true, scan_id := some "scan-1", book := some sampleBook,
            warning := some "" })).book ≠ none := by
  decide

/-- C6 amended: for every server response with HTTP success status,
`success:true`, and a NON-EMPTY `warning` present, the client returns a
partial-success result — success true, message equal to the server
warning, and book null — even if the response also contained book data. -/
theorem partial_success_amended (isbn statusText w : String) (d : ScanResponse)
    (hs : d.success = true) (hw : d.warning = some w) (hne : w ≠ "") :
    postScanToAPI isbn (.response true statusText d)
      = { success := true, message := some w, book := none } :=
  postScanToAPI_warning hs hw hne

theorem partial_success_amended_witness :
    postScanToAPI "9780134670942"
        (.response true "OK"
          { success := true, scan_id := some "scan-1", book := some sampleBook,
            warning := some "Book metadata could not be fetched" })
      = { success := true, message := some "Book metadata could not be fetched",
          book := none } :=
  partial_success_amended "9780134670942" "OK"
    "Book metadata could not be fetched"
    { success := true, scan_id := some "scan-1", book := some sampleBook,
      warning := some "Book metadata could not be fetched" }
    (by decide) (by decide) (by decide)

/-- C7 counterexample: an HTTP error with an unrecognized code, no server
error message, and statusText "Too Many Requests": the client returns
"Server error: Too Many Requests", not the status text itself as the
claim states. -/
theorem error_code_mapping_cex :
    (postScanToAPI "9780134670942"
        (.response false "Too Many Requests"
          { success := false, code := some "RATE_LIMITED" })).message
      = some "Server error: Too Many Requests"
    ∧ (postScanToAPI "9780134670942"
        (.response false "Too Many Requests"
          { success := false, code := some "RATE_LIMITED" })).message
      ≠ some "Too Many Requests" := by
  decide

/-- C7 amended: for every HTTP error response, code INVALID_ISBN yields
the not-a-valid-ISBN failure message, code MISSING_ISBN yields
"ISBN is required", and any other code yields the server-provided error
message or, if that is absent or empty, the fallback message
"Server error: " followed by the HTTP status text. -/
theorem error_code_mapping_amended (isbn statusText : String)
    (d : ScanResponse) :
    (d.code = some "INVALID_ISBN" →
      postScanToAPI isbn (.response false statusText d)
        = { success := false
            message := some "This barcode is not a valid ISBN. Please scan a book\x27s ISBN barcode." })
    ∧ (d.code = some "MISSING_ISBN" →
      postScanToAPI isbn (.response false statusText d)
        = { success := false, message := some "ISBN is required" })
    ∧ (d.code ≠ some "INVALID_ISBN" → d.code ≠ some "MISSING_ISBN" →
      postScanToAPI isbn (.response false statusText d)
        = { success := false
            message := some (jsOrStr d.error ("Server error: " ++ statusText)) }) := by
  refine ⟨fun h => ?_, fun h => ?_, fun h1 h2 => ?_⟩
  · unfold postScanToAPI
    simp [h]
  · unfold postScanToAPI
    simp [h]
  · unfold postScanToAPI
    simp [h1, h2]

theorem error_code_mapping_amended_witness :
    postScanToAPI "12345" (.response false "Bad Request"
        { success := false, error := some "Invalid ISBN format",
          code := some "INVALID_ISBN" })
      = { success := false
          message := some "This barcode is not a valid ISBN. Please scan a book\x27s ISBN barcode." }
    ∧ postScanToAPI "" (.response false "Bad Request"
        { success := false, code := some "MISSING_ISBN" })
      = { success := false, message := some "ISBN is required" }
    ∧ postScanToAPI "9780134670942" (.response false "Too Many Requests"
        { success := false, code := some "RATE_LIMITED" })
      = { success := false, message := some "Server error: Too Many Requests" } := by
  refine ⟨(error_code_mapping_amended "12345" "Bad Request"
             { success := false, error := some "Invalid ISBN format",
               code := some "INVALID_ISBN" }).1 (by decide),
          (error_code_mapping_amended "" "Bad Request"
             { success := false, code := some "MISSING_ISBN" }).2.1 (by decide),
          ?_⟩
  have h := (error_code_mapping_amended "9780134670942" "Too Many Requests"
      { success := false, code := some "RATE_LIMITED" }).2.2
      (by decide) (by decide)
  simpa [jsOrStr] using h

/-- C8 counterexample: a JSON-parse failure surfaces as a thrown
SyntaxError, which is not a TypeError — the client returns the exception's
own message, not the network-error retry message, contrary to the claim
that every transport/parse exception yields the network-error message. -/
theorem network_error_mapping_cex :
    postScanToAPI "9780134670942"
        (.thrown (.otherError "Unexpected token < in JSON at position 0"))
      = { success := false,
          message := some "Unexpected token < in JSON at position 0" }
    ∧ (postScanToAPI "9780134670942"
        (.thrown (.otherError "Unexpected token < in JSON at position 0"))).message
      ≠ some "Network error. Please check your internet connection and try again." := by
  decide

/-- C8 amended: a thrown exception that is a TypeError whose message
contains "Network request failed" (the shape fetch network failures take
in React Native) yields the network-error message inviting a retry; every
other thrown exception — including the SyntaxError of a failed JSON parse
— yields a failure carrying the exception's own message, or
"Unknown error occurred" for a thrown value that is not an Error; in
every thrown case the result is a failure. -/
theorem network_error_mapping_amended (isbn m : String) (e : JsError) :
    (jsIncludes m "Network request failed" = true →
      postScanToAPI isbn (.thrown (.typeError m))
        = { success := false
            message := some "Network error. Please check your internet connection and try again." })
    ∧ (jsIncludes m "Network request failed" = false →
      postScanToAPI isbn (.thrown (.typeError m))
        = { success := false, message := some m })
    ∧ postScanToAPI isbn (.thrown (.otherError m))
        = { success := false, message := some m }
    ∧ postScanToAPI isbn (.thrown .nonError)
        = { success := false, message := some "Unknown error occurred" }
    ∧ (postScanToAPI isbn (.thrown e)).success = false := by
  refine ⟨fun h => ?_, fun h => ?_, rfl, rfl, ?_⟩
  · unfold postScanToAPI
    simp [h]
  · unfold postScanToAPI
    simp [h]
  · cases e with
    | typeError msg =>
      unfold postScanToAPI
      by_cases hi : jsIncludes msg "Network request failed" = true
      · simp [hi]
      · simp [hi]
    | otherError msg => rfl
    | nonError => rfl

theorem network_error_mapping_amended_witness :
    postScanToAPI "9780134670942" (.thrown (.typeError "Network request failed"))
      = { success := false
          message := some "Network error. Please check your internet connection and try again." }
    ∧ postScanToAPI "9780134670942"
        (.thrown (.typeError "Cannot read property of undefined"))
      = { success := false,
          message := some "Cannot read property of undefined" } :=
  ⟨(network_error_mapping_amended "9780134670942" "Network request failed"
      .nonError).1 (by decide),
   (network_error_mapping_amended "9780134670942"
      "Cannot read property of undefined" .nonError).2.1 (by decide)⟩

/-- C9: totality of the submission client — for every input ISBN, every
server response shape (including HTTP success with `success:false`), and
every thrown exception, `postScanToAPI` returns a `ScanResult` with an
explicit success flag and a message set; it is a total function into
`ScanResult` (the embedding of its `try`/`catch` never rethrows). -/
theorem submission_client_total (isbn : String) (env : FetchOutcome) :
    ∃ m : String, (postScanToAPI isbn env).message = some m := by
  rcases env with ⟨ok, statusText, d⟩ | e
  · simp only [postScanToAPI]
    split
    · split
      · exact ⟨_, rfl⟩
      · split
        · exact ⟨_, rfl⟩
        · exact ⟨_, rfl⟩
    · split
      · split
        · rename_i hw
          cases hwv : d.warning with
          | none => rw [hwv] at hw; simp [jsTruthy] at hw
          | some w => exact ⟨w, by simp [hwv]⟩
        · exact ⟨_, rfl⟩
      · exact ⟨_, rfl⟩
  · rcases e with msg | msg | _
    · simp only [postScanToAPI]
      split
      · exact ⟨_, rfl⟩
      · exact ⟨_, rfl⟩
    · exact ⟨msg, rfl⟩
    · exact ⟨"Unknown error occurred", rfl⟩

/-- C10: the per-session `scanCount` increments by exactly 1 when and only
when the submission resolved with a result whose `success` is true —
including the partial-success case (HTTP success, `success:true`,
non-empty warning), whose result has `success = true` and `book = null` —
and stays unchanged when the result has `success = false` or the call
threw. -/
theorem scan_count_increment (s : ScannerState) (r : ScanResult)
    (isbn statusText w : String) (d : ScanResponse) :
    (r.success = true → (stepComplete s (some r)).scanCount = s.scanCount + 1)
    ∧ (r.success = false → (stepComplete s (some r)).scanCount = s.scanCount)
    ∧ (stepComplete s none).scanCount = s.scanCount
    ∧ (d.success = true → d.warning = some w → w ≠ "" →
        (postScanToAPI isbn (.response true statusText d)).success = true
        ∧ (stepComplete s
            (some (postScanToAPI isbn (.response true statusText d)))).scanCount
          = s.scanCount + 1) := by
  refine ⟨fun h => ?_, fun h => ?_, rfl, fun hs hw hne => ?_⟩
  · simp [stepComplete, h]
  · simp [stepComplete, h]
  · rw [postScanToAPI_warning hs hw hne]
    exact ⟨rfl, by simp [stepComplete]⟩

theorem scan_count_increment_witness :
    (stepComplete initState
        (some { success := true, message := some "Scan saved successfully!",
                book := some sampleBook })).scanCount = initState.scanCount + 1
    ∧ (stepComplete initState
        (some (postScanToAPI "9780134670942"
          (.response true "OK"
            { success := true, warning := some "metadata fetch failed" })))).scanCount
      = initState.scanCount + 1 := by
  refine ⟨(scan_count_increment initState
             { success := true, message := some "Scan saved successfully!",
               book := some sampleBook }
             "9780134670942" "OK" "metadata fetch failed"
             { success := true, warning := some "metadata fetch failed" }).1
            (by decide),
          ((scan_count_increment initState
             { success := true, message := some "Scan saved successfully!",
               book := some sampleBook }
             "9780134670942" "OK" "metadata fetch failed"
             { success := true, warning := some "metadata fetch failed" }).2.2.2
            (by decide) (by decide) (by decide)).2⟩
